import Mathlib

/-!
Shallow embedding of `cnwheat/model.py` (hierarchical CN-exchange model of a wheat
culm).  All quantities are modelled over `ℚ`: the Python code computes with floats,
but every claim under scrutiny is about exact algebraic structure (signs, clamps,
branch selection, sums), so exact rational arithmetic is the faithful idealisation.
Division is Lean's total division on `ℚ`; every theorem that depends on a quotient
carries the positivity hypotheses under which the Python code does not raise
`ZeroDivisionError`.

The repository's `parameters` module is not part of the sources, so every kinetic
parameter (`VMAX_*`, `K_*`, `SIGMA`, `BETA`, `ALPHA`, `FILLING_INIT`, ...) is taken
as an explicit rational argument; the claims quantify over them implicitly.
-/

namespace CNWheat

/-- Molar mass of nitrogen (g mol-1), `EcophysiologicalConstants.N_MOLAR_MASS`. -/
def N_MOLAR_MASS : ℚ := 14

/-- State of a `HiddenZone` organ: state parameters, state compartments and the
stored flux attributes that the phloem aggregation reads
(`contributor.Unloading_Sucrose`, ...). -/
structure HiddenZone where
  mstruct : ℚ
  Nstruct : ℚ
  sucrose : ℚ
  fructan : ℚ
  amino_acids : ℚ
  proteins : ℚ
  Unloading_Sucrose : ℚ
  Unloading_Amino_Acids : ℚ
  S_Proteins : ℚ
  S_Fructan : ℚ
  D_Fructan : ℚ
  D_Proteins : ℚ

/-- `HiddenZone.calculate_D_Fructan`: potential first-order degradation inhibited by
sucrose, capped by the available fructan pool.  `K_DFRUCTAN` and `VMAX_DFRUCTAN`
come from the (absent) `parameters` module and are passed explicitly. -/
def HiddenZone.calculate_D_Fructan (K_DFRUCTAN VMAX_DFRUCTAN : ℚ) (hz : HiddenZone)
    (sucrose fructan delta_t : ℚ) : ℚ :=
  let d_potential := ((K_DFRUCTAN * VMAX_DFRUCTAN) / ((max 0 sucrose) / hz.mstruct + K_DFRUCTAN)) * delta_t
  let d_actual := min d_potential (max 0 fructan)
  d_actual

/-- `HiddenZone.calculate_sucrose_derivative`. -/
def HiddenZone.calculate_sucrose_derivative (hz : HiddenZone)
    (Unloading_Sucrose S_Fructan D_Fructan hiddenzone_Loading_Sucrose_contribution : ℚ) : ℚ :=
  Unloading_Sucrose + (D_Fructan - S_Fructan) * hz.mstruct + hiddenzone_Loading_Sucrose_contribution

/-- `HiddenZone.calculate_amino_acids_derivative`. -/
def HiddenZone.calculate_amino_acids_derivative (hz : HiddenZone)
    (Unloading_Amino_Acids S_Proteins D_Proteins hiddenzone_Loading_Amino_Acids_contribution : ℚ) : ℚ :=
  Unloading_Amino_Acids + (D_Proteins - S_Proteins) * hz.mstruct + hiddenzone_Loading_Amino_Acids_contribution

/-- `HiddenZone.calculate_fructan_derivative`. -/
def HiddenZone.calculate_fructan_derivative (hz : HiddenZone) (S_Fructan D_Fructan : ℚ) : ℚ :=
  (S_Fructan - D_Fructan) * hz.mstruct

/-- `HiddenZone.calculate_proteins_derivative`. -/
def HiddenZone.calculate_proteins_derivative (hz : HiddenZone) (S_Proteins D_Proteins : ℚ) : ℚ :=
  (S_Proteins - D_Proteins) * hz.mstruct

/-- State of a `Grains` organ.  `structure_C` is the attribute called `structure`
in the source (a Lean keyword).  `structural_dry_mass` is the derived attribute
set by `Grains.initialize`; the stored flux attributes are read by the phloem
aggregation. -/
structure Grains where
  age_from_flowering : ℚ
  starch : ℚ
  structure_C : ℚ
  proteins : ℚ
  structural_dry_mass : ℚ
  S_grain_structure : ℚ
  S_grain_starch : ℚ
  S_Proteins : ℚ

/-- `Grains.calculate_S_grain_structure`: exponential growth of grain structure
before `FILLING_INIT`, zero afterwards. -/
def Grains.calculate_S_grain_structure (FILLING_INIT : ℚ) (g : Grains)
    (prec_structure RGR_Structure delta_t : ℚ) : ℚ :=
  if g.age_from_flowering ≤ FILLING_INIT then
    prec_structure * RGR_Structure * delta_t
  else
    0

/-- `Grains.calculate_S_grain_starch`: Michaelis-Menten filling between
`FILLING_INIT` (exclusive) and `FILLING_END` (inclusive), zero outside.
`AXIS_ALPHA` is `Axis.PARAMETERS.ALPHA`. -/
def Grains.calculate_S_grain_starch (FILLING_INIT FILLING_END VMAX_STARCH K_STARCH AXIS_ALPHA : ℚ)
    (g : Grains) (sucrose_phloem mstruct_axis delta_t : ℚ) : ℚ :=
  if g.age_from_flowering ≤ FILLING_INIT then
    0
  else if FILLING_END < g.age_from_flowering then
    0
  else
    (((max 0 sucrose_phloem) / (mstruct_axis * AXIS_ALPHA)) * VMAX_STARCH) /
      ((max 0 sucrose_phloem) / (mstruct_axis * AXIS_ALPHA) + K_STARCH) * delta_t

/-- State of a `Roots` organ, with the stored flux attributes read by the phloem
aggregation and the derived `Total_Organic_Nitrogen`. -/
structure Roots where
  mstruct : ℚ
  Nstruct : ℚ
  sucrose : ℚ
  nitrates : ℚ
  amino_acids : ℚ
  cytokinins : ℚ
  Unloading_Sucrose : ℚ
  Unloading_Amino_Acids : ℚ
  Total_Organic_Nitrogen : ℚ

/-- `Roots.calculate_Total_Organic_Nitrogen`: amino acids plus structural N in µmol. -/
def Roots.calculate_Total_Organic_Nitrogen (amino_acids Nstruct : ℚ) : ℚ :=
  amino_acids + (Nstruct / N_MOLAR_MASS) * 1000000

/-- `Roots.calculate_S_amino_acids`: bi-substrate Michaelis-Menten synthesis.
Note the source applies no clamp and no zero guard to `nitrates` or `sucrose`. -/
def Roots.calculate_S_amino_acids (VMAX_AMINO_ACIDS K_AMINO_ACIDS_NITRATES K_AMINO_ACIDS_SUCROSE ALPHA : ℚ)
    (r : Roots) (nitrates sucrose delta_t : ℚ) : ℚ :=
  VMAX_AMINO_ACIDS /
      ((1 + K_AMINO_ACIDS_NITRATES / (nitrates / (r.mstruct * ALPHA))) *
        (1 + K_AMINO_ACIDS_SUCROSE / (sucrose / (r.mstruct * ALPHA)))) * delta_t

/-- `Roots.calculate_Export_Nitrates`: zero when `nitrates <= 0` or
`regul_transpiration <= 0`, otherwise proportional to concentration, mstruct,
transpiration regulation and `delta_t`. -/
def Roots.calculate_Export_Nitrates (K_NITRATE_EXPORT ALPHA : ℚ) (r : Roots)
    (nitrates regul_transpiration delta_t : ℚ) : ℚ :=
  if nitrates ≤ 0 ∨ regul_transpiration ≤ 0 then
    0
  else
    (nitrates / (r.mstruct * ALPHA)) * K_NITRATE_EXPORT * r.mstruct * regul_transpiration * delta_t

/-- `Roots.calculate_Export_Amino_Acids`: zero only when `amino_acids <= 0`
(no clamp on `regul_transpiration`, unlike the nitrate export). -/
def Roots.calculate_Export_Amino_Acids (K_AMINO_ACIDS_EXPORT ALPHA : ℚ) (r : Roots)
    (amino_acids regul_transpiration delta_t : ℚ) : ℚ :=
  if amino_acids ≤ 0 then
    0
  else
    (amino_acids / (r.mstruct * ALPHA)) * K_AMINO_ACIDS_EXPORT * r.mstruct * regul_transpiration * delta_t

/-- `Roots.calculate_integrative_variables`: recompute `Total_Organic_Nitrogen`
from the current state compartments (a pure rewrite of the in-place mutation). -/
def Roots.calculate_integrative_variables (r : Roots) : Roots :=
  { r with Total_Organic_Nitrogen := Roots.calculate_Total_Organic_Nitrogen r.amino_acids r.Nstruct }

/-- State of a `PhotosyntheticOrganElement`: state parameters, state compartments,
the stored loading fluxes read by the phloem aggregation, the derived
`Total_Organic_Nitrogen`, the tissue-variant class parameter `ALPHA`, and the
derived attributes that the source's `initialize` method stores on the object
(conductances and pre-multiplied kinetic constants). -/
structure PhotosyntheticOrganElement where
  mstruct : ℚ
  Nstruct : ℚ
  green_area : ℚ
  Tr : ℚ
  Ag : ℚ
  Ts : ℚ
  triosesP : ℚ
  starch : ℚ
  sucrose : ℚ
  fructan : ℚ
  nitrates : ℚ
  amino_acids : ℚ
  proteins : ℚ
  cytokinins : ℚ
  Loading_Sucrose : ℚ
  Loading_Amino_Acids : ℚ
  Total_Organic_Nitrogen : ℚ
  ALPHA : ℚ
  conductance_Export_Amino_Acids : ℚ
  conductance_Loading_Amino_Acids : ℚ
  conductance_Export_Sucrose : ℚ
  conductance_Loading_Sucrose : ℚ
  CST1_D_Fructan : ℚ
  K_D_Fructan : ℚ
  VMAX_S_AA : ℚ
  K_Nitrates_S_AA : ℚ
  K_TrioseP_S_AA : ℚ

/-- Conductance as set by the source's element set-up method:
`delta_t * sigma * beta * mstruct ** (2 / 3)`.  The 2/3 power has no rational
form, so the embedding takes the value `mstructPow23` of `mstruct ** (2 / 3)`
as an input; nothing below depends on its internal structure. -/
def conductance_from_setup (delta_t sigma beta mstructPow23 : ℚ) : ℚ :=
  delta_t * sigma * beta * mstructPow23

/-- `PhotosyntheticOrganElement.calculate_Loading_Sucrose`: transport-resistance
loading to the phloem, with the asymmetric driving factor
`max(conc_element, conc_phloem)`.  (The source's diagnostic `print` when
`mstruct == 0` has no effect on the returned value and is omitted.) -/
def PhotosyntheticOrganElement.calculate_Loading_Sucrose (AXIS_ALPHA : ℚ)
    (e : PhotosyntheticOrganElement) (sucrose sucrose_phloem mstruct_axis delta_t : ℚ) : ℚ :=
  let conc_sucrose_element := sucrose / (e.mstruct * e.ALPHA)
  let conc_sucrose_phloem := sucrose_phloem / (mstruct_axis * AXIS_ALPHA)
  let driving_sucrose_compartment := max conc_sucrose_element conc_sucrose_phloem
  let diff_sucrose := conc_sucrose_element - conc_sucrose_phloem
  driving_sucrose_compartment * diff_sucrose * e.conductance_Loading_Sucrose

/-- `PhotosyntheticOrganElement.calculate_export_sucrose`: transport-resistance
export to the hidden zone.  The source multiplies only the concentration
difference by the conductance (no driving-concentration factor). -/
def PhotosyntheticOrganElement.calculate_export_sucrose
    (e : PhotosyntheticOrganElement) (sucrose sucrose_hiddenzone mstruct_hiddenzone delta_t : ℚ) : ℚ :=
  let conc_sucrose_element := sucrose / (e.mstruct * e.ALPHA)
  let conc_sucrose_hiddenzone := sucrose_hiddenzone / mstruct_hiddenzone
  let diff_sucrose := conc_sucrose_element - conc_sucrose_hiddenzone
  diff_sucrose * e.conductance_Export_Sucrose

/-- `PhotosyntheticOrganElement.calculate_Loading_Amino_Acids`: transport-resistance
loading to the phloem, with the asymmetric driving factor. -/
def PhotosyntheticOrganElement.calculate_Loading_Amino_Acids (AXIS_ALPHA : ℚ)
    (e : PhotosyntheticOrganElement) (amino_acids amino_acids_phloem mstruct_axis delta_t : ℚ) : ℚ :=
  let Conc_Amino_Acids_element := amino_acids / (e.mstruct * e.ALPHA)
  let Conc_Amino_Acids_phloem := amino_acids_phloem / (mstruct_axis * AXIS_ALPHA)
  let driving_amino_acids_compartment := max Conc_Amino_Acids_element Conc_Amino_Acids_phloem
  let diff_amino_acids := Conc_Amino_Acids_element - Conc_Amino_Acids_phloem
  driving_amino_acids_compartment * diff_amino_acids * e.conductance_Loading_Amino_Acids

/-- `PhotosyntheticOrganElement.calculate_Export_Amino_Acids`: transport-resistance
export to the hidden zone (no driving-concentration factor in the source). -/
def PhotosyntheticOrganElement.calculate_Export_Amino_Acids
    (e : PhotosyntheticOrganElement) (amino_acids amino_acids_hiddenzone mstruct_hiddenzone delta_t : ℚ) : ℚ :=
  let Conc_Amino_Acids_element := amino_acids / (e.mstruct * e.ALPHA)
  let Conc_Amino_Acids_hiddenzone := amino_acids_hiddenzone / mstruct_hiddenzone
  let diff_amino_acids := Conc_Amino_Acids_element - Conc_Amino_Acids_hiddenzone
  diff_amino_acids * e.conductance_Export_Amino_Acids

/-- `PhotosyntheticOrganElement.calculate_D_Fructan`: potential degradation from
the pre-multiplied constant `CST1_D_Fructan = K_DFRUCTAN * VMAX_DFRUCTAN * delta_t`,
capped by the available fructan pool (the `delta_t` argument is unused in the
source, the factor being folded into `CST1_D_Fructan`). -/
def PhotosyntheticOrganElement.calculate_D_Fructan
    (e : PhotosyntheticOrganElement) (sucrose fructan delta_t : ℚ) : ℚ :=
  let d_potential := e.CST1_D_Fructan / ((max 0 sucrose) / (e.mstruct * e.ALPHA) + e.K_D_Fructan)
  let d_actual := min d_potential (max 0 fructan)
  d_actual

/-- `PhotosyntheticOrganElement.calculate_Nitrates_import`: transpiration-
proportional share of the root nitrate export, with zero fallback when the
culm transpiration is not strictly positive. -/
def PhotosyntheticOrganElement.calculate_Nitrates_import
    (e : PhotosyntheticOrganElement) (Export_Nitrates element_transpiration Total_Transpiration : ℚ) : ℚ :=
  if 0 < Total_Transpiration then
    Export_Nitrates * (element_transpiration / Total_Transpiration)
  else
    0

/-- `PhotosyntheticOrganElement.calculate_Amino_Acids_import`: same pattern as the
nitrate import. -/
def PhotosyntheticOrganElement.calculate_Amino_Acids_import
    (e : PhotosyntheticOrganElement) (roots_exported_amino_acids element_transpiration Total_Transpiration : ℚ) : ℚ :=
  if 0 < Total_Transpiration then
    roots_exported_amino_acids * (element_transpiration / Total_Transpiration)
  else
    0

/-- `PhotosyntheticOrganElement.calculate_cytokinins_import`: same pattern as the
nitrate import. -/
def PhotosyntheticOrganElement.calculate_cytokinins_import
    (e : PhotosyntheticOrganElement) (roots_exporteD_cytokinins element_transpiration Total_Transpiration : ℚ) : ℚ :=
  if 0 < Total_Transpiration then
    roots_exporteD_cytokinins * (element_transpiration / Total_Transpiration)
  else
    0

/-- `PhotosyntheticOrganElement.calculate_S_amino_acids`: bi-substrate
Michaelis-Menten synthesis, guarded to return 0 when either substrate is
non-positive (`VMAX_S_AA` is `VMAX_AMINO_ACIDS * delta_t` from set-up; the
`delta_t` argument is unused in the source). -/
def PhotosyntheticOrganElement.calculate_S_amino_acids
    (e : PhotosyntheticOrganElement) (nitrates triosesP delta_t : ℚ) : ℚ :=
  if nitrates ≤ 0 ∨ triosesP ≤ 0 then
    0
  else
    e.VMAX_S_AA /
      ((1 + e.K_Nitrates_S_AA / (nitrates / (e.mstruct * e.ALPHA))) *
        (1 + e.K_TrioseP_S_AA / (triosesP / (e.mstruct * e.ALPHA))))

/-- `PhotosyntheticOrganElement.calculate_Total_Organic_Nitrogen`. -/
def PhotosyntheticOrganElement.calculate_Total_Organic_Nitrogen (amino_acids proteins Nstruct : ℚ) : ℚ :=
  amino_acids + proteins + (Nstruct / N_MOLAR_MASS) * 1000000

/-- `PhotosyntheticOrganElement.calculate_integrative_variables`: recompute
`Total_Organic_Nitrogen` from the current state (pure rewrite of the mutation). -/
def PhotosyntheticOrganElement.calculate_integrative_variables
    (e : PhotosyntheticOrganElement) : PhotosyntheticOrganElement :=
  { e with Total_Organic_Nitrogen :=
      PhotosyntheticOrganElement.calculate_Total_Organic_Nitrogen e.amino_acids e.proteins e.Nstruct }

/-- The phloem pool. -/
structure Phloem where
  sucrose : ℚ
  amino_acids : ℚ

/-- A member of the caller-supplied contributor collection of
`Phloem.calculate_sucrose_derivative` / `calculate_amino_acids_derivative`.
The source dispatches with an `isinstance` chain over
`PhotosyntheticOrganElement`, `Grains`, `Roots`, `HiddenZone`; the `other`
constructor stands for a contributor of any class outside those four, for which
the chain falls through silently.  `ROOTS_ALPHA` is the class parameter
`Roots.PARAMETERS.ALPHA` read through `contributor.__class__`. -/
inductive Contributor where
  | element (e : PhotosyntheticOrganElement)
  | grains (g : Grains)
  | roots (r : Roots)
  | hiddenzone (hz : HiddenZone)
  | other

/-- `Phloem.calculate_sucrose_derivative`: signed accumulation over the
contributor collection, mirroring the source's `for` loop with its
`isinstance` dispatch. -/
def Phloem.calculate_sucrose_derivative (ROOTS_ALPHA : ℚ) (p : Phloem)
    (contributors : List Contributor) : ℚ :=
  contributors.foldl
    (fun sucrose_derivative contributor =>
      match contributor with
      | .element e => sucrose_derivative + e.Loading_Sucrose
      | .grains g => sucrose_derivative - (g.S_grain_structure + g.S_grain_starch * g.structural_dry_mass)
      | .roots r => sucrose_derivative - r.Unloading_Sucrose * r.mstruct * ROOTS_ALPHA
      | .hiddenzone hz => sucrose_derivative - hz.Unloading_Sucrose
      | .other => sucrose_derivative)
    0

/-- `Phloem.calculate_amino_acids_derivative`: signed accumulation over the
contributor collection, mirroring the source's `for` loop. -/
def Phloem.calculate_amino_acids_derivative (ROOTS_ALPHA : ℚ) (p : Phloem)
    (contributors : List Contributor) : ℚ :=
  contributors.foldl
    (fun amino_acids_derivative contributor =>
      match contributor with
      | .element e => amino_acids_derivative + e.Loading_Amino_Acids
      | .grains g => amino_acids_derivative - g.S_Proteins
      | .roots r => amino_acids_derivative - r.Unloading_Amino_Acids * r.mstruct * ROOTS_ALPHA
      | .hiddenzone hz => amino_acids_derivative - hz.Unloading_Amino_Acids
      | .other => amino_acids_derivative)
    0

/-- `HiddenZone.calculate_integrative_variables` is inherited from `Organ`
(a no-op `pass`). -/
def HiddenZone.calculate_integrative_variables (hz : HiddenZone) : HiddenZone := hz

/-- `Phloem.calculate_integrative_variables` is inherited from `Organ` (a no-op). -/
def Phloem.calculate_integrative_variables (p : Phloem) : Phloem := p

/-- `Grains.calculate_integrative_variables` is inherited from `Organ` (a no-op);
in particular `structural_dry_mass` is left as set by `Grains.initialize`. -/
def Grains.calculate_integrative_variables (g : Grains) : Grains := g

/-- A `PhotosyntheticOrgan` (chaff, peduncle, lamina, internode or sheath): up to
two elements and the derived `mstruct`. -/
structure PhotosyntheticOrgan where
  exposed_element : Option PhotosyntheticOrganElement
  enclosed_element : Option PhotosyntheticOrganElement
  mstruct : ℚ

/-- `PhotosyntheticOrgan.calculate_integrative_variables`: recurse into the
present elements and sum their `mstruct`. -/
def PhotosyntheticOrgan.calculate_integrative_variables (o : PhotosyntheticOrgan) : PhotosyntheticOrgan :=
  let exposed_element := o.exposed_element.map PhotosyntheticOrganElement.calculate_integrative_variables
  let enclosed_element := o.enclosed_element.map PhotosyntheticOrganElement.calculate_integrative_variables
  { o with
    exposed_element := exposed_element
    enclosed_element := enclosed_element
    mstruct := (exposed_element.elim 0 fun e => e.mstruct) + (enclosed_element.elim 0 fun e => e.mstruct) }

/-- A `Phytomer`: optional child organs, optional hidden zone, derived `mstruct`. -/
structure Phytomer where
  chaff : Option PhotosyntheticOrgan
  peduncle : Option PhotosyntheticOrgan
  lamina : Option PhotosyntheticOrgan
  internode : Option PhotosyntheticOrgan
  sheath : Option PhotosyntheticOrgan
  hiddenzone : Option HiddenZone
  mstruct : ℚ

/-- `Phytomer.calculate_integrative_variables`: recurse into each present child
organ (including the hidden zone) and sum their `mstruct`. -/
def Phytomer.calculate_integrative_variables (p : Phytomer) : Phytomer :=
  let chaff := p.chaff.map PhotosyntheticOrgan.calculate_integrative_variables
  let peduncle := p.peduncle.map PhotosyntheticOrgan.calculate_integrative_variables
  let lamina := p.lamina.map PhotosyntheticOrgan.calculate_integrative_variables
  let internode := p.internode.map PhotosyntheticOrgan.calculate_integrative_variables
  let sheath := p.sheath.map PhotosyntheticOrgan.calculate_integrative_variables
  let hiddenzone := p.hiddenzone.map HiddenZone.calculate_integrative_variables
  { p with
    chaff := chaff, peduncle := peduncle, lamina := lamina
    internode := internode, sheath := sheath, hiddenzone := hiddenzone
    mstruct :=
      (chaff.elim 0 fun o => o.mstruct) + (peduncle.elim 0 fun o => o.mstruct) +
        (lamina.elim 0 fun o => o.mstruct) + (internode.elim 0 fun o => o.mstruct) +
        (sheath.elim 0 fun o => o.mstruct) + (hiddenzone.elim 0 fun hz => hz.mstruct) }

/-- An `Axis`: roots, phloem, optional grains, phytomers, derived `mstruct`. -/
structure Axis where
  roots : Option Roots
  phloem : Option Phloem
  grains : Option Grains
  phytomers : List Phytomer
  mstruct : ℚ

/-- `Axis.calculate_integrative_variables`: recurse into roots, phloem, grains and
phytomers; `mstruct` accumulates roots' `mstruct`, grains' `structural_dry_mass`
and the phytomers' `mstruct` (the phloem contributes nothing). -/
def Axis.calculate_integrative_variables (a : Axis) : Axis :=
  let roots := a.roots.map Roots.calculate_integrative_variables
  let phloem := a.phloem.map Phloem.calculate_integrative_variables
  let grains := a.grains.map Grains.calculate_integrative_variables
  let phytomers := a.phytomers.map Phytomer.calculate_integrative_variables
  { a with
    roots := roots, phloem := phloem, grains := grains, phytomers := phytomers
    mstruct :=
      (roots.elim 0 fun r => r.mstruct) + (grains.elim 0 fun g => g.structural_dry_mass) +
        (phytomers.map fun p => p.mstruct).sum }

/-- A `Plant`: a list of axes. -/
structure Plant where
  axes : List Axis

/-- `Plant.calculate_integrative_variables`: recurse into every axis. -/
def Plant.calculate_integrative_variables (p : Plant) : Plant :=
  { p with axes := p.axes.map Axis.calculate_integrative_variables }

/-- A `Population`: a list of plants. -/
structure Population where
  plants : List Plant

/-- `Population.calculate_integrative_variables`: recurse into every plant. -/
def Population.calculate_integrative_variables (p : Population) : Population :=
  { p with plants := p.plants.map Plant.calculate_integrative_variables }

/-- Whether the `isinstance` chain of the phloem aggregation recognises the
contributor (it dispatches on the four classes and silently skips anything else). -/
def Contributor.isRecognized : Contributor → Bool
  | .other => false
  | _ => true

/-- A concrete hidden zone with every field 1, used to evaluate flux laws. -/
def unitHiddenZone : HiddenZone where
  mstruct := 1
  Nstruct := 1
  sucrose := 1
  fructan := 1
  amino_acids := 1
  proteins := 1
  Unloading_Sucrose := 1
  Unloading_Amino_Acids := 1
  S_Proteins := 1
  S_Fructan := 1
  D_Fructan := 1
  D_Proteins := 1

/-- A concrete root system with every field 1, used to evaluate flux laws. -/
def unitRoots : Roots where
  mstruct := 1
  Nstruct := 1
  sucrose := 1
  nitrates := 1
  amino_acids := 1
  cytokinins := 1
  Unloading_Sucrose := 1
  Unloading_Amino_Acids := 1
  Total_Organic_Nitrogen := 1

/-- A concrete grain set aged 15 s after flowering (between the example window
bounds 10 and 20 used in the witnesses), other fields 1. -/
def midGrains : Grains where
  age_from_flowering := 15
  starch := 1
  structure_C := 1
  proteins := 1
  structural_dry_mass := 1
  S_grain_structure := 1
  S_grain_starch := 1
  S_Proteins := 1

/-- A concrete element with unit mass and unit parameters; its four conductances
are set through `conductance_from_setup` with `delta_t = sigma = beta = 1` and
`mstruct ** (2/3) = 1` (consistent with `mstruct = 1`). -/
def unitElement : PhotosyntheticOrganElement where
  mstruct := 1
  Nstruct := 1
  green_area := 1
  Tr := 1
  Ag := 1
  Ts := 1
  triosesP := 1
  starch := 1
  sucrose := 1
  fructan := 1
  nitrates := 1
  amino_acids := 1
  proteins := 1
  cytokinins := 1
  Loading_Sucrose := 1
  Loading_Amino_Acids := 1
  Total_Organic_Nitrogen := 1
  ALPHA := 1
  conductance_Export_Amino_Acids := conductance_from_setup 1 1 1 1
  conductance_Loading_Amino_Acids := conductance_from_setup 1 1 1 1
  conductance_Export_Sucrose := conductance_from_setup 1 1 1 1
  conductance_Loading_Sucrose := conductance_from_setup 1 1 1 1
  CST1_D_Fructan := 1
  K_D_Fructan := 1
  VMAX_S_AA := 1
  K_Nitrates_S_AA := 1
  K_TrioseP_S_AA := 1

/-- Folding the phloem accumulation over a list from which the unrecognised
contributors were removed gives the same value, for any starting accumulator:
each unrecognised contributor leaves the accumulator unchanged. -/
lemma foldl_filter_isRecognized (step : ℚ → Contributor → ℚ)
    (h : ∀ acc, step acc Contributor.other = acc) :
    ∀ (cs : List Contributor) (init : ℚ),
      (cs.filter Contributor.isRecognized).foldl step init = cs.foldl step init := by
  intro cs
  induction cs with
  | nil => intro init; rfl
  | cons c cs ih =>
    intro init
    cases c with
    | other => simpa [List.filter, Contributor.isRecognized, h] using ih init
    | element e => simpa [List.filter, Contributor.isRecognized] using ih (step init (.element e))
    | grains g => simpa [List.filter, Contributor.isRecognized] using ih (step init (.grains g))
    | roots r => simpa [List.filter, Contributor.isRecognized] using ih (step init (.roots r))
    | hiddenzone hz => simpa [List.filter, Contributor.isRecognized] using ih (step init (.hiddenzone hz))

/-- Claim C1: for a phloem whose contributor collection is exactly one hidden
zone with zero external contributions, and the hidden zone's own stored flux
values passed consistently to all derivative functions, the carbon derivatives
(phloem sucrose + hidden-zone sucrose + hidden-zone fructan) sum to zero, and
the nitrogen derivatives (phloem amino acids + hidden-zone amino acids +
hidden-zone proteins) sum to zero. -/
theorem phloem_hiddenzone_mass_conservation (ROOTS_ALPHA : ℚ) (p : Phloem) (hz : HiddenZone) :
    Phloem.calculate_sucrose_derivative ROOTS_ALPHA p [Contributor.hiddenzone hz]
        + hz.calculate_sucrose_derivative hz.Unloading_Sucrose hz.S_Fructan hz.D_Fructan 0
        + hz.calculate_fructan_derivative hz.S_Fructan hz.D_Fructan = 0
    ∧ Phloem.calculate_amino_acids_derivative ROOTS_ALPHA p [Contributor.hiddenzone hz]
        + hz.calculate_amino_acids_derivative hz.Unloading_Amino_Acids hz.S_Proteins hz.D_Proteins 0
        + hz.calculate_proteins_derivative hz.S_Proteins hz.D_Proteins = 0 := by
  constructor <;>
    simp only [Phloem.calculate_sucrose_derivative, Phloem.calculate_amino_acids_derivative,
      HiddenZone.calculate_sucrose_derivative, HiddenZone.calculate_amino_acids_derivative,
      HiddenZone.calculate_fructan_derivative, HiddenZone.calculate_proteins_derivative,
      List.foldl] <;>
    ring

/-- Claim C10: contributors outside the four dispatched classes add exactly zero
to either phloem derivative: filtering them out of any contributor list leaves
both returned values unchanged. -/
theorem phloem_derivative_ignores_unrecognized (ROOTS_ALPHA : ℚ) (p : Phloem)
    (contributors : List Contributor) :
    Phloem.calculate_sucrose_derivative ROOTS_ALPHA p
        (contributors.filter Contributor.isRecognized)
      = Phloem.calculate_sucrose_derivative ROOTS_ALPHA p contributors
    ∧ Phloem.calculate_amino_acids_derivative ROOTS_ALPHA p
        (contributors.filter Contributor.isRecognized)
      = Phloem.calculate_amino_acids_derivative ROOTS_ALPHA p contributors := by
  constructor
  · exact foldl_filter_isRecognized _ (fun acc => rfl) contributors 0
  · exact foldl_filter_isRecognized _ (fun acc => rfl) contributors 0

/-- Claim C2, counterexample: the element-to-hidden-zone sucrose export does NOT
carry the driving-concentration factor.  With unit mass and conductance, element
sucrose 2 and hidden-zone sucrose 1 (concentrations 2 and 1), the code returns
(2 - 1) * 1 = 1, while the claimed formula max(2,1) * (2 - 1) * 1 equals 2. -/
theorem export_sucrose_driving_factor_counterexample :
    unitElement.calculate_export_sucrose 2 1 1 1 = 1
    ∧ max (2 / (unitElement.mstruct * unitElement.ALPHA)) (1 / (1 : ℚ)) *
        (2 / (unitElement.mstruct * unitElement.ALPHA) - 1 / (1 : ℚ)) *
        unitElement.conductance_Export_Sucrose = 2 := by
  constructor <;>
    norm_num [PhotosyntheticOrganElement.calculate_export_sucrose, unitElement,
      conductance_from_setup]

/-- Claim C2, amended: with the four conductances set as in the source's element
set-up (`delta_t * sigma * beta * mstruct ** (2/3)`), the two phloem-loading
fluxes return `max(C_source, C_sink) * (C_source - C_sink) * conductance`, but
the two hidden-zone export fluxes return only `(C_source - C_sink) * conductance`
with no driving-concentration factor. -/
theorem transport_resistance_fluxes_amended
    (AXIS_ALPHA SIGMA_SUCROSE SIGMA_AMINO_ACIDS SIGMA_HZ BETA mstructPow23 delta_t : ℚ)
    (e : PhotosyntheticOrganElement)
    (hLS : e.conductance_Loading_Sucrose = conductance_from_setup delta_t SIGMA_SUCROSE BETA mstructPow23)
    (hLA : e.conductance_Loading_Amino_Acids = conductance_from_setup delta_t SIGMA_AMINO_ACIDS BETA mstructPow23)
    (hES : e.conductance_Export_Sucrose = conductance_from_setup delta_t SIGMA_HZ BETA mstructPow23)
    (hEA : e.conductance_Export_Amino_Acids = conductance_from_setup delta_t SIGMA_HZ BETA mstructPow23)
    (sucrose sucrose_phloem amino_acids amino_acids_phloem mstruct_axis
      sucrose_hiddenzone amino_acids_hiddenzone mstruct_hiddenzone : ℚ) :
    e.calculate_Loading_Sucrose AXIS_ALPHA sucrose sucrose_phloem mstruct_axis delta_t =
        max (sucrose / (e.mstruct * e.ALPHA)) (sucrose_phloem / (mstruct_axis * AXIS_ALPHA)) *
          (sucrose / (e.mstruct * e.ALPHA) - sucrose_phloem / (mstruct_axis * AXIS_ALPHA)) *
          (SIGMA_SUCROSE * BETA * mstructPow23 * delta_t)
    ∧ e.calculate_Loading_Amino_Acids AXIS_ALPHA amino_acids amino_acids_phloem mstruct_axis delta_t =
        max (amino_acids / (e.mstruct * e.ALPHA)) (amino_acids_phloem / (mstruct_axis * AXIS_ALPHA)) *
          (amino_acids / (e.mstruct * e.ALPHA) - amino_acids_phloem / (mstruct_axis * AXIS_ALPHA)) *
          (SIGMA_AMINO_ACIDS * BETA * mstructPow23 * delta_t)
    ∧ e.calculate_export_sucrose sucrose sucrose_hiddenzone mstruct_hiddenzone delta_t =
        (sucrose / (e.mstruct * e.ALPHA) - sucrose_hiddenzone / mstruct_hiddenzone) *
          (SIGMA_HZ * BETA * mstructPow23 * delta_t)
    ∧ e.calculate_Export_Amino_Acids amino_acids amino_acids_hiddenzone mstruct_hiddenzone delta_t =
        (amino_acids / (e.mstruct * e.ALPHA) - amino_acids_hiddenzone / mstruct_hiddenzone) *
          (SIGMA_HZ * BETA * mstructPow23 * delta_t) := by
  refine ⟨?_, ?_, ?_, ?_⟩ <;>
    simp only [PhotosyntheticOrganElement.calculate_Loading_Sucrose,
      PhotosyntheticOrganElement.calculate_Loading_Amino_Acids,
      PhotosyntheticOrganElement.calculate_export_sucrose,
      PhotosyntheticOrganElement.calculate_Export_Amino_Acids,
      hLS, hLA, hES, hEA, conductance_from_setup] <;>
    ring

/-- Concrete instance of `transport_resistance_fluxes_amended` at the unit
element: loading with element concentration 2 against phloem concentration 1
gives max(2,1) * (2 - 1) * 1 = 2, export gives (2 - 1) * 1 = 1. -/
theorem transport_resistance_fluxes_amended_witness :
    unitElement.calculate_Loading_Sucrose 1 2 1 1 1 = 2
    ∧ unitElement.calculate_export_sucrose 2 1 1 1 = 1 := by
  have h := transport_resistance_fluxes_amended 1 1 1 1 1 1 1 unitElement rfl rfl rfl rfl
    2 1 2 1 1 1 1 1
  refine ⟨?_, ?_⟩
  · rw [h.1]; norm_num [unitElement]
  · rw [h.2.2.1]; norm_num [unitElement]

/-- Claim C3: both fructan-degradation laws are capped by the available pool —
for every inputs (negative ones included) the result is at most `max 0 fructan`
— and, under non-negative kinetic parameters, non-negative `delta_t` and
positive structural mass, the result is also non-negative. -/
theorem D_Fructan_capped_and_nonneg (K_DFRUCTAN VMAX_DFRUCTAN : ℚ) (hz : HiddenZone)
    (e : PhotosyntheticOrganElement) (sucrose fructan delta_t : ℚ) :
    HiddenZone.calculate_D_Fructan K_DFRUCTAN VMAX_DFRUCTAN hz sucrose fructan delta_t ≤ max 0 fructan
    ∧ e.calculate_D_Fructan sucrose fructan delta_t ≤ max 0 fructan
    ∧ (0 ≤ K_DFRUCTAN → 0 ≤ VMAX_DFRUCTAN → 0 ≤ delta_t → 0 < hz.mstruct →
        0 ≤ HiddenZone.calculate_D_Fructan K_DFRUCTAN VMAX_DFRUCTAN hz sucrose fructan delta_t)
    ∧ (0 ≤ e.CST1_D_Fructan → 0 ≤ e.K_D_Fructan → 0 < e.mstruct * e.ALPHA →
        0 ≤ e.calculate_D_Fructan sucrose fructan delta_t) := by
  refine ⟨min_le_right _ _, min_le_right _ _, ?_, ?_⟩
  · intro hK hV hdt hm
    refine le_min ?_ (le_max_left 0 fructan)
    exact mul_nonneg
      (div_nonneg (mul_nonneg hK hV)
        (add_nonneg (div_nonneg (le_max_left 0 sucrose) hm.le) hK)) hdt
  · intro hC hK hm
    refine le_min ?_ (le_max_left 0 fructan)
    exact div_nonneg hC (add_nonneg (div_nonneg (le_max_left 0 sucrose) hm.le) hK)

/-- Concrete instance of `D_Fructan_capped_and_nonneg`: with zero sucrose,
fructan 5 and unit kinetics, the hidden-zone degradation is within [0, 5]. -/
theorem D_Fructan_capped_and_nonneg_witness :
    HiddenZone.calculate_D_Fructan 1 1 unitHiddenZone 0 5 1 ≤ max 0 5
    ∧ 0 ≤ HiddenZone.calculate_D_Fructan 1 1 unitHiddenZone 0 5 1 := by
  have h := D_Fructan_capped_and_nonneg 1 1 unitHiddenZone unitElement 0 5 1
  exact ⟨h.1, h.2.2.1 (by norm_num) (by norm_num) (by norm_num)
    (by norm_num [unitHiddenZone])⟩

/-- Claim C4: whenever the culm transpiration is not strictly positive, the three
transpiration-proportional import functions return exactly 0 (the dividing
branch is never taken). -/
theorem imports_zero_at_zero_transpiration (e : PhotosyntheticOrganElement)
    (exported element_transpiration Total_Transpiration : ℚ)
    (h : Total_Transpiration ≤ 0) :
    e.calculate_Nitrates_import exported element_transpiration Total_Transpiration = 0
    ∧ e.calculate_Amino_Acids_import exported element_transpiration Total_Transpiration = 0
    ∧ e.calculate_cytokinins_import exported element_transpiration Total_Transpiration = 0 := by
  refine ⟨?_, ?_, ?_⟩ <;>
    simp [PhotosyntheticOrganElement.calculate_Nitrates_import,
      PhotosyntheticOrganElement.calculate_Amino_Acids_import,
      PhotosyntheticOrganElement.calculate_cytokinins_import, not_lt.mpr h]

/-- Concrete instance of `imports_zero_at_zero_transpiration`: exported
nitrates 500, element transpiration 10, culm transpiration 0 gives import 0. -/
theorem imports_zero_at_zero_transpiration_witness :
    unitElement.calculate_Nitrates_import 500 10 0 = 0 := by
  exact (imports_zero_at_zero_transpiration unitElement 500 10 0 (by norm_num)).1

/-- Claim C5: grain filling threshold.  Before (or at) `FILLING_INIT` the
structure synthesis follows the exponential RGR law and the starch synthesis is
zero; strictly between `FILLING_INIT` and `FILLING_END` (inclusive) the
structure synthesis is zero and the starch synthesis equals the Michaelis-Menten
term in the phloem sucrose concentration, strictly positive under positive
phloem sucrose, axis mass, `delta_t` and kinetic parameters; beyond
`FILLING_END` the starch synthesis is zero again. -/
theorem grain_filling_threshold (FILLING_INIT FILLING_END VMAX_STARCH K_STARCH AXIS_ALPHA : ℚ)
    (g : Grains) (prec_structure RGR_Structure sucrose_phloem mstruct_axis delta_t : ℚ)
    (hdt : 0 < delta_t) (hm : 0 < mstruct_axis) (hs : 0 < sucrose_phloem)
    (hV : 0 < VMAX_STARCH) (hK : 0 ≤ K_STARCH) (ha : 0 < AXIS_ALPHA) :
    (g.age_from_flowering ≤ FILLING_INIT →
      Grains.calculate_S_grain_structure FILLING_INIT g prec_structure RGR_Structure delta_t
          = prec_structure * RGR_Structure * delta_t
        ∧ Grains.calculate_S_grain_starch FILLING_INIT FILLING_END VMAX_STARCH K_STARCH AXIS_ALPHA
            g sucrose_phloem mstruct_axis delta_t = 0)
    ∧ (FILLING_INIT < g.age_from_flowering → g.age_from_flowering ≤ FILLING_END →
      Grains.calculate_S_grain_structure FILLING_INIT g prec_structure RGR_Structure delta_t = 0
        ∧ Grains.calculate_S_grain_starch FILLING_INIT FILLING_END VMAX_STARCH K_STARCH AXIS_ALPHA
            g sucrose_phloem mstruct_axis delta_t
          = ((sucrose_phloem / (mstruct_axis * AXIS_ALPHA)) * VMAX_STARCH) /
              (sucrose_phloem / (mstruct_axis * AXIS_ALPHA) + K_STARCH) * delta_t
        ∧ 0 < Grains.calculate_S_grain_starch FILLING_INIT FILLING_END VMAX_STARCH K_STARCH AXIS_ALPHA
            g sucrose_phloem mstruct_axis delta_t)
    ∧ (FILLING_END < g.age_from_flowering →
      Grains.calculate_S_grain_starch FILLING_INIT FILLING_END VMAX_STARCH K_STARCH AXIS_ALPHA
          g sucrose_phloem mstruct_axis delta_t = 0) := by
  have hconc : 0 < sucrose_phloem / (mstruct_axis * AXIS_ALPHA) := div_pos hs (mul_pos hm ha)
  have hmaxs : max 0 sucrose_phloem = sucrose_phloem := max_eq_right hs.le
  refine ⟨?_, ?_, ?_⟩
  · intro hage
    constructor
    · simp [Grains.calculate_S_grain_structure, hage]
    · simp [Grains.calculate_S_grain_starch, hage]
  · intro hage1 hage2
    have hnle : ¬ g.age_from_flowering ≤ FILLING_INIT := not_le.mpr hage1
    have hnlt : ¬ FILLING_END < g.age_from_flowering := not_lt.mpr hage2
    have hval : Grains.calculate_S_grain_starch FILLING_INIT FILLING_END VMAX_STARCH K_STARCH
        AXIS_ALPHA g sucrose_phloem mstruct_axis delta_t
        = ((sucrose_phloem / (mstruct_axis * AXIS_ALPHA)) * VMAX_STARCH) /
            (sucrose_phloem / (mstruct_axis * AXIS_ALPHA) + K_STARCH) * delta_t := by
      simp [Grains.calculate_S_grain_starch, hnle, hnlt, hmaxs]
    refine ⟨by simp [Grains.calculate_S_grain_structure, hnle], hval, ?_⟩
    rw [hval]
    exact mul_pos (div_pos (mul_pos hconc hV) (add_pos_of_pos_of_nonneg hconc hK)) hdt
  · intro hage
    rcases le_or_lt g.age_from_flowering FILLING_INIT with hle | hlt
    · simp [Grains.calculate_S_grain_starch, hle]
    · simp [Grains.calculate_S_grain_starch, not_le.mpr hlt, hage]

/-- Concrete instance of `grain_filling_threshold`, in the filling window:
age 15 with `FILLING_INIT` = 10, `FILLING_END` = 20 and unit parameters gives
no structure synthesis and a strictly positive starch synthesis. -/
theorem grain_filling_threshold_witness :
    Grains.calculate_S_grain_structure 10 midGrains 3 2 1 = 0
    ∧ 0 < Grains.calculate_S_grain_starch 10 20 1 1 1 midGrains 1 1 1 := by
  have h := (grain_filling_threshold 10 20 1 1 1 midGrains 3 2 1 1 1
    (by norm_num) (by norm_num) (by norm_num) (by norm_num) (by norm_num) (by norm_num)).2.1
    (by norm_num [midGrains]) (by norm_num [midGrains])
  exact ⟨h.1, h.2.2⟩

/-- Claim C6, counterexample: `Roots.calculate_S_amino_acids` applies no clamp —
with nitrates -1 (non-positive), sucrose 1, unit mass and parameters
`VMAX` = 1, `K_nitrates` = 2, `K_sucrose` = 1, it returns -1/2, not 0. -/
theorem roots_S_amino_acids_unclamped_counterexample :
    ((-1 : ℚ) ≤ 0)
    ∧ Roots.calculate_S_amino_acids 1 2 1 1 unitRoots (-1) 1 1 = -(1 / 2) := by
  constructor
  · norm_num
  · norm_num [Roots.calculate_S_amino_acids, unitRoots]

/-- Claim C6, amended: only the element amino-acid synthesis is guarded — it
returns 0 whenever nitrates or triose phosphates are non-positive.  (The roots
version evaluates the unguarded bi-substrate formula; see the counterexample.) -/
theorem element_S_amino_acids_clamped (e : PhotosyntheticOrganElement)
    (nitrates triosesP delta_t : ℚ) (h : nitrates ≤ 0 ∨ triosesP ≤ 0) :
    e.calculate_S_amino_acids nitrates triosesP delta_t = 0 := by
  simp [PhotosyntheticOrganElement.calculate_S_amino_acids, h]

/-- Concrete instance of `element_S_amino_acids_clamped` at nitrates -1. -/
theorem element_S_amino_acids_clamped_witness :
    unitElement.calculate_S_amino_acids (-1) 1 1 = 0 := by
  exact element_S_amino_acids_clamped unitElement (-1) 1 1 (Or.inl (by norm_num))

/-- Claim C7: root export clamp asymmetry.  Nitrate export is zero whenever
nitrates or the transpiration regulator is non-positive and follows the product
formula otherwise; amino-acid export is zero only when amino acids are
non-positive, and for positive amino acids follows the product formula for
EVERY value of the transpiration regulator, non-positive values included. -/
theorem root_export_clamp_asymmetry (K_NITRATE_EXPORT K_AMINO_ACIDS_EXPORT ALPHA : ℚ)
    (r : Roots) (nitrates amino_acids regul_transpiration delta_t : ℚ) :
    (nitrates ≤ 0 ∨ regul_transpiration ≤ 0 →
      Roots.calculate_Export_Nitrates K_NITRATE_EXPORT ALPHA r nitrates regul_transpiration delta_t = 0)
    ∧ (0 < nitrates → 0 < regul_transpiration →
      Roots.calculate_Export_Nitrates K_NITRATE_EXPORT ALPHA r nitrates regul_transpiration delta_t
        = (nitrates / (r.mstruct * ALPHA)) * K_NITRATE_EXPORT * r.mstruct * regul_transpiration * delta_t)
    ∧ (amino_acids ≤ 0 →
      Roots.calculate_Export_Amino_Acids K_AMINO_ACIDS_EXPORT ALPHA r amino_acids regul_transpiration delta_t = 0)
    ∧ (0 < amino_acids →
      Roots.calculate_Export_Amino_Acids K_AMINO_ACIDS_EXPORT ALPHA r amino_acids regul_transpiration delta_t
        = (amino_acids / (r.mstruct * ALPHA)) * K_AMINO_ACIDS_EXPORT * r.mstruct * regul_transpiration * delta_t) := by
  refine ⟨?_, ?_, ?_, ?_⟩
  · intro h
    simp [Roots.calculate_Export_Nitrates, h]
  · intro h1 h2
    simp [Roots.calculate_Export_Nitrates, not_le.mpr h1, not_le.mpr h2]
  · intro h
    simp [Roots.calculate_Export_Amino_Acids, h]
  · intro h
    simp [Roots.calculate_Export_Amino_Acids, not_le.mpr h]

/-- Concrete instance of `root_export_clamp_asymmetry` showing the asymmetry at
a negative transpiration regulator: nitrate export is 0, amino-acid export is
the (negative) product value -1. -/
theorem root_export_clamp_asymmetry_witness :
    Roots.calculate_Export_Nitrates 1 1 unitRoots 1 (-1) 1 = 0
    ∧ Roots.calculate_Export_Amino_Acids 1 1 unitRoots 1 (-1) 1 = -1 := by
  have h := root_export_clamp_asymmetry 1 1 1 unitRoots 1 1 (-1) 1
  refine ⟨h.1 (Or.inr (by norm_num)), ?_⟩
  rw [h.2.2.2 (by norm_num)]
  norm_num [unitRoots]

/-- Structural mass of a photosynthetic organ as the spec states it: the sum of
the `mstruct` of its present elements. -/
def organ_mstruct_sum (o : PhotosyntheticOrgan) : ℚ :=
  (o.exposed_element.elim 0 fun e => e.mstruct) + (o.enclosed_element.elim 0 fun e => e.mstruct)

/-- Structural mass of a phytomer as the spec states it: the sum over its present
child organs (chaff, peduncle, lamina, internode, sheath, hidden zone). -/
def phytomer_mstruct_sum (p : Phytomer) : ℚ :=
  (p.chaff.elim 0 organ_mstruct_sum) + (p.peduncle.elim 0 organ_mstruct_sum) +
    (p.lamina.elim 0 organ_mstruct_sum) + (p.internode.elim 0 organ_mstruct_sum) +
    (p.sheath.elim 0 organ_mstruct_sum) + (p.hiddenzone.elim 0 fun hz => hz.mstruct)

/-- Structural mass of an axis as the spec states it: roots' `mstruct`, plus
grains' `structural_dry_mass` when present, plus the phytomer sums; the phloem
contributes nothing. -/
def axis_mstruct_sum (a : Axis) : ℚ :=
  (a.roots.elim 0 fun r => r.mstruct) + (a.grains.elim 0 fun g => g.structural_dry_mass) +
    (a.phytomers.map phytomer_mstruct_sum).sum

/-- The aggregation pass assigns a photosynthetic organ exactly the element sum. -/
lemma organ_calc_mstruct (o : PhotosyntheticOrgan) :
    (PhotosyntheticOrgan.calculate_integrative_variables o).mstruct = organ_mstruct_sum o := by
  cases hex : o.exposed_element <;> cases hen : o.enclosed_element <;>
    simp [PhotosyntheticOrgan.calculate_integrative_variables, organ_mstruct_sum, hex, hen,
      PhotosyntheticOrganElement.calculate_integrative_variables]

/-- Recursing into an optional organ and then reading its `mstruct` gives the
organ's element sum. -/
lemma option_organ_calc_mstruct (o : Option PhotosyntheticOrgan) :
    ((o.map PhotosyntheticOrgan.calculate_integrative_variables).elim 0 fun x => x.mstruct)
      = o.elim 0 organ_mstruct_sum := by
  cases o <;> simp [organ_calc_mstruct]

/-- Recursing into an optional hidden zone is a no-op. -/
lemma option_hiddenzone_calc (o : Option HiddenZone) :
    o.map HiddenZone.calculate_integrative_variables = o := by
  cases o <;> rfl

/-- The aggregation pass assigns a phytomer exactly the child-organ sum. -/
lemma phytomer_calc_mstruct (p : Phytomer) :
    (Phytomer.calculate_integrative_variables p).mstruct = phytomer_mstruct_sum p := by
  simp only [Phytomer.calculate_integrative_variables, phytomer_mstruct_sum,
    option_organ_calc_mstruct, option_hiddenzone_calc]

/-- Claim C8: after the aggregation pass, the axis `mstruct` is the sum of the
roots' `mstruct`, the grains' `structural_dry_mass` when present, and, for every
phytomer, the sum of the `mstruct` of its present child organs, each
photosynthetic organ counting the sum of its present elements and the phloem
counting nothing; in particular, an axis with roots, a phloem, no grains and two
phytomers each holding one lamina with a single exposed element aggregates to
roots plus the two elements. -/
theorem axis_mstruct_aggregation (a : Axis) :
    (Axis.calculate_integrative_variables a).mstruct = axis_mstruct_sum a
    ∧ ∀ (r : Roots) (ph : Phloem) (e1 e2 : PhotosyntheticOrganElement),
      (Axis.calculate_integrative_variables
        { roots := some r, phloem := some ph, grains := none
          phytomers :=
            [{ chaff := none, peduncle := none
               lamina := some { exposed_element := some e1, enclosed_element := none, mstruct := 0 }
               internode := none, sheath := none, hiddenzone := none, mstruct := 0 },
             { chaff := none, peduncle := none
               lamina := some { exposed_element := some e2, enclosed_element := none, mstruct := 0 }
               internode := none, sheath := none, hiddenzone := none, mstruct := 0 }]
          mstruct := 0 }).mstruct = r.mstruct + e1.mstruct + e2.mstruct := by
  constructor
  · simp only [Axis.calculate_integrative_variables, axis_mstruct_sum]
    congr 1
    · congr 1
      · cases a.roots <;> simp [Roots.calculate_integrative_variables]
      · cases a.grains <;> simp [Grains.calculate_integrative_variables]
    · rw [List.map_map]
      exact congrArg List.sum (List.map_congr_left fun p _ => phytomer_calc_mstruct p)
  · intro r ph e1 e2
    simp [Axis.calculate_integrative_variables, Phytomer.calculate_integrative_variables,
      PhotosyntheticOrgan.calculate_integrative_variables, Roots.calculate_integrative_variables,
      PhotosyntheticOrganElement.calculate_integrative_variables]
    ring

/-- One aggregation step leaves an element's state untouched and only rewrites
its derived field, so a second step reproduces it. -/
lemma element_calc_idempotent (e : PhotosyntheticOrganElement) :
    PhotosyntheticOrganElement.calculate_integrative_variables
        (PhotosyntheticOrganElement.calculate_integrative_variables e)
      = PhotosyntheticOrganElement.calculate_integrative_variables e := rfl

/-- A second aggregation step on roots reproduces the first. -/
lemma roots_calc_idempotent (r : Roots) :
    Roots.calculate_integrative_variables (Roots.calculate_integrative_variables r)
      = Roots.calculate_integrative_variables r := rfl

/-- A second aggregation step on a photosynthetic organ reproduces the first. -/
lemma organ_calc_idempotent (o : PhotosyntheticOrgan) :
    PhotosyntheticOrgan.calculate_integrative_variables
        (PhotosyntheticOrgan.calculate_integrative_variables o)
      = PhotosyntheticOrgan.calculate_integrative_variables o := by
  cases hex : o.exposed_element <;> cases hen : o.enclosed_element <;>
    simp [PhotosyntheticOrgan.calculate_integrative_variables, hex, hen,
      element_calc_idempotent]

/-- A second aggregation step on a phytomer reproduces the first. -/
lemma phytomer_calc_idempotent (p : Phytomer) :
    Phytomer.calculate_integrative_variables (Phytomer.calculate_integrative_variables p)
      = Phytomer.calculate_integrative_variables p := by
  cases hc : p.chaff <;> cases hp : p.peduncle <;> cases hl : p.lamina <;>
    cases hi : p.internode <;> cases hs : p.sheath <;> cases hh : p.hiddenzone <;>
    simp [Phytomer.calculate_integrative_variables, hc, hp, hl, hi, hs, hh,
      organ_calc_idempotent, HiddenZone.calculate_integrative_variables]

/-- Mapping the roots aggregation twice over an optional root system equals
mapping it once. -/
lemma option_roots_calc_idem (o : Option Roots) :
    (o.map Roots.calculate_integrative_variables).map Roots.calculate_integrative_variables
      = o.map Roots.calculate_integrative_variables := by
  cases o <;> rfl

/-- Recursing into optional grains is a no-op. -/
lemma option_grains_calc (o : Option Grains) :
    o.map Grains.calculate_integrative_variables = o := by
  cases o <;> rfl

/-- Recursing into an optional phloem is a no-op. -/
lemma option_phloem_calc (o : Option Phloem) :
    o.map Phloem.calculate_integrative_variables = o := by
  cases o <;> rfl

/-- Mapping the phytomer aggregation twice over a phytomer list equals mapping
it once. -/
lemma list_phytomer_calc_idem (l : List Phytomer) :
    (l.map Phytomer.calculate_integrative_variables).map Phytomer.calculate_integrative_variables
      = l.map Phytomer.calculate_integrative_variables := by
  rw [List.map_map]
  exact List.map_congr_left fun p _ => phytomer_calc_idempotent p

/-- A second aggregation step on an axis reproduces the first. -/
lemma axis_calc_idempotent (a : Axis) :
    Axis.calculate_integrative_variables (Axis.calculate_integrative_variables a)
      = Axis.calculate_integrative_variables a := by
  simp only [Axis.calculate_integrative_variables, option_roots_calc_idem, option_grains_calc,
    option_phloem_calc, list_phytomer_calc_idem]

/-- Claim C9: the aggregation pass is idempotent — running
`Population.calculate_integrative_variables` twice with no intervening state
change returns the same tree as running it once, so every derived field
(`mstruct` at every level, `Total_Organic_Nitrogen` of roots and elements)
keeps its value from the first run. -/
theorem aggregation_idempotent (P : Population) :
    Population.calculate_integrative_variables (Population.calculate_integrative_variables P)
      = Population.calculate_integrative_variables P := by
  simp [Population.calculate_integrative_variables, Plant.calculate_integrative_variables,
    List.map_map, Function.comp, axis_calc_idempotent]

end CNWheat
